import Mathlib

/-!
Shallow embedding of the tax-optimization core of the repository
(src/backend/api/tax_optimizer.py): the progressive Indian tax calculator
`calculate_indian_tax`, the marginal-bracket resolver and tax-saving
strategy generator `get_standard_tax_strategies`, and the eligible-deduction
aggregation performed by the `/tax-optimization` endpoint handler.

Conventions of the embedding:
- Python floats are modelled as rationals; the arithmetic here -- slab sums,
  percentages, clamping with min/max -- is exact in both.
- Python dict outputs are modelled as structures.  Fields that are pure
  display text (implementation_steps, optimization_tip, tax_bracket_impact,
  additional_benefit, retirement_benefit, market_benefit, additional_info)
  are omitted; every numeric or policy-relevant field is kept.
- Python round (round-half-to-even, to an integer) is modelled by pyRound.
- user_context is a Dict, of which the code reads only the key age with
  default 30; it is modelled as a structure with an optional age.
-/

namespace TaxOptimizer

/-- Python round: round half to even, to an integer. -/
def pyRound (q : ℚ) : ℤ :=
  if q - (⌊q⌋ : ℚ) < 1/2 then ⌊q⌋
  else if 1/2 < q - (⌊q⌋ : ℚ) then ⌊q⌋ + 1
  else if ⌊q⌋ % 2 = 0 then ⌊q⌋ else ⌊q⌋ + 1

/-- One itemized deduction record (class TaxDeduction in the source). -/
structure TaxDeduction where
  category : String
  amount : ℚ
  eligible : Bool
deriving DecidableEq, Repr

/-- The user_context dictionary; the source reads only the age key with
default 30. -/
structure UserContext where
  age : Option ℚ := none
deriving DecidableEq, Repr

/-- Result dictionary of calculate_indian_tax. -/
structure TaxResult where
  base_tax : ℚ
  cess : ℚ
  total_tax : ℚ
  effective_rate : ℚ
deriving DecidableEq, Repr

/-- The FY 2024-25 slab table of the source: pairs (upper limit, rate),
with none standing for the float infinity of the unbounded top slab. -/
def tax_slabs : List (Option ℚ × ℚ) :=
  [(some 400000, 0),
   (some 800000, 5/100),
   (some 1200000, 10/100),
   (some 1600000, 15/100),
   (some 2000000, 20/100),
   (some 2400000, 25/100),
   (none, 30/100)]

/-- The slab-walking loop of calculate_indian_tax: walks the table with a
remaining-income accumulator, taxing min(remaining, limit - previous) in each
slab, breaking when remaining <= 0 and at the infinite top slab. -/
def slabTax : ℚ → ℚ → List (Option ℚ × ℚ) → ℚ
  | _, _, [] => 0
  | remaining_income, previous_limit, (limit, rate) :: rest =>
    if remaining_income ≤ 0 then 0
    else
      match limit with
      | none => remaining_income * rate
      | some l =>
        let taxable_in_slab := min remaining_income (l - previous_limit)
        taxable_in_slab * rate + slabTax (remaining_income - taxable_in_slab) l rest

/-- calculate_indian_tax: slab walk, then 4% cess on the base tax; the
effective rate is a percentage, (total/income)*100, guarded to 0 when
income is not positive. -/
def calculate_indian_tax (income : ℚ) : TaxResult :=
  let total_tax := slabTax income 0 tax_slabs
  let cess := total_tax * (4/100)
  let total_tax_with_cess := total_tax + cess
  { base_tax := total_tax
    cess := cess
    total_tax := total_tax_with_cess
    effective_rate := if income > 0 then total_tax_with_cess / income * 100 else 0 }

/-- The marginal-bracket chain at the top of get_standard_tax_strategies. -/
def tax_bracket_of (income : ℚ) : ℚ :=
  if income > 2400000 then 30/100
  else if income > 2000000 then 25/100
  else if income > 1600000 then 20/100
  else if income > 1200000 then 15/100
  else if income > 800000 then 10/100
  else if income > 400000 then 5/100
  else 0

/-- sum(d.amount for d in deductions if d.category in cats).  The source uses
a python list membership test for Section 80C and a single equality test for
the other categories; a one-element cats list gives the equality case. -/
def sumByCategories (cats : List String) (deds : List TaxDeduction) : ℚ :=
  ((deds.filter (fun d => cats.contains d.category)).map TaxDeduction.amount).sum

/-- The Section 80C instrument categories of the source. -/
def cats80C : List String := ["EPF", "PPF", "ELSS", "Life Insurance", "NSC"]

/-- total_deductions of the endpoint handler:
sum(d.amount for d in request.deductions if d.eligible). -/
def total_eligible_deductions (deds : List TaxDeduction) : ℚ :=
  ((deds.filter (fun d => d.eligible)).map TaxDeduction.amount).sum

/-- The handler's post-deduction tax:
calculate_indian_tax(max(0, income - total_deductions)). -/
def tax_after_deductions (income : ℚ) (deds : List TaxDeduction) : TaxResult :=
  calculate_indian_tax (max 0 (income - total_eligible_deductions deds))

/-- One emitted strategy dictionary.  Fields absent from a given strategy's
dict are none (or false for the NPS marker flag). -/
structure Strategy where
  strategy_name : String
  potential_savings : Option ℤ := none
  recommended_contribution : Option ℤ := none
  current_utilization : Option ℤ := none
  remaining_limit : Option ℤ := none
  self_family_limit : Option ℚ := none
  parents_additional_limit : Option ℚ := none
  additional_to_80c : Bool := false
  current_deduction : Option ℤ := none
  maximum_allowed : Option ℚ := none
  lock_in_period : Option String := none
  priority : String
  deadline : String
deriving DecidableEq, Repr

/-- The Section 80C strategy dict (built when emitted). -/
def elem80C (tb : ℚ) (deds : List TaxDeduction) : Strategy :=
  let current_80c := sumByCategories cats80C deds
  let remaining_80c := max 0 ((150000 : ℚ) - current_80c)
  { strategy_name := "Section 80C Tax Saving Investments"
    potential_savings := some (pyRound (remaining_80c * tb * (104/100)))
    recommended_contribution := some (pyRound remaining_80c)
    current_utilization := some (pyRound current_80c)
    remaining_limit := some (pyRound remaining_80c)
    priority := "high"
    deadline := "March 31, 2025" }

/-- The Section 80C block: gated on income > 300000 and remaining limit
positive; note the category sum has no eligibility filter. -/
def strategy80C (income tb : ℚ) (deds : List TaxDeduction) : List Strategy :=
  if income > 300000 then
    let current_80c := sumByCategories cats80C deds
    let remaining_80c := max 0 ((150000 : ℚ) - current_80c)
    if remaining_80c > 0 then [elem80C tb deds] else []
  else []

/-- The Section 80D strategy dict.  The source computes
health_insurance_limit and parents_limit by the same age test. -/
def elem80D (tb : ℚ) (deds : List TaxDeduction) (ctx : UserContext) : Strategy :=
  let age := ctx.age.getD 30
  let health_insurance_limit : ℚ := if age < 60 then 25000 else 50000
  let parents_limit : ℚ := if age < 60 then 25000 else 50000
  let current_health_premium := sumByCategories ["Health Insurance"] deds
  let remaining_health := max 0 (health_insurance_limit - current_health_premium)
  { strategy_name := "Section 80D Health Insurance Optimization"
    potential_savings := some (pyRound (remaining_health * tb * (104/100)))
    recommended_contribution := some (pyRound remaining_health)
    self_family_limit := some health_insurance_limit
    parents_additional_limit := some parents_limit
    priority := "high"
    deadline := "March 31, 2025" }

/-- The Section 80D block: no income gate, only remaining_health > 0. -/
def strategy80D (tb : ℚ) (deds : List TaxDeduction) (ctx : UserContext) : List Strategy :=
  let age := ctx.age.getD 30
  let health_insurance_limit : ℚ := if age < 60 then 25000 else 50000
  let current_health_premium := sumByCategories ["Health Insurance"] deds
  let remaining_health := max 0 (health_insurance_limit - current_health_premium)
  if remaining_health > 0 then [elem80D tb deds ctx] else []

/-- The NPS 80CCD-1B strategy dict. -/
def elemNPS (tb : ℚ) (deds : List TaxDeduction) : Strategy :=
  let current_nps := sumByCategories ["NPS"] deds
  let remaining_nps := max 0 ((50000 : ℚ) - current_nps)
  { strategy_name := "NPS Additional Deduction (80CCD-1B)"
    potential_savings := some (pyRound (remaining_nps * tb * (104/100)))
    recommended_contribution := some (pyRound remaining_nps)
    additional_to_80c := true
    priority := "medium"
    deadline := "March 31, 2025" }

/-- The NPS block: gated on income > 500000 and remaining limit positive. -/
def strategyNPS (income tb : ℚ) (deds : List TaxDeduction) : List Strategy :=
  if income > 500000 then
    let current_nps := sumByCategories ["NPS"] deds
    let remaining_nps := max 0 ((50000 : ℚ) - current_nps)
    if remaining_nps > 0 then [elemNPS tb deds] else []
  else []

/-- The home-loan strategy dict: reports the current interest sum and the
cap 200000 but computes no savings and no headroom. -/
def elemHomeLoan (deds : List TaxDeduction) : Strategy :=
  let home_loan_interest := sumByCategories ["Home Loan Interest"] deds
  { strategy_name := "Home Loan Interest Optimization"
    current_deduction := some (pyRound home_loan_interest)
    maximum_allowed := some 200000
    priority := "medium"
    deadline := "Ongoing throughout the year" }

/-- The home-loan block: emitted whenever any deduction record has the
Home Loan Interest category, with no headroom gate. -/
def strategyHomeLoan (deds : List TaxDeduction) : List Strategy :=
  if deds.any (fun d => d.category == "Home Loan Interest") then [elemHomeLoan deds] else []

/-- The ELSS strategy dict; its target is min(150000, income * 0.1). -/
def elemELSS (income tb : ℚ) (deds : List TaxDeduction) : Strategy :=
  let elss_recommendation := min (150000 : ℚ) (income * (1/10))
  let current_elss := sumByCategories ["ELSS"] deds
  let additional_elss := max 0 (elss_recommendation - current_elss)
  { strategy_name := "ELSS Mutual Fund Investment"
    potential_savings := some (pyRound (additional_elss * tb * (104/100)))
    recommended_contribution := some (pyRound additional_elss)
    lock_in_period := some ("3 years (shortest among 80C options)")
    priority := "medium"
    deadline := "March 31, 2025" }

/-- The ELSS block: gated on income > 600000 and a positive additional
recommendation. -/
def strategyELSS (income tb : ℚ) (deds : List TaxDeduction) : List Strategy :=
  if income > 600000 then
    let elss_recommendation := min (150000 : ℚ) (income * (1/10))
    let current_elss := sumByCategories ["ELSS"] deds
    let additional_elss := max 0 (elss_recommendation - current_elss)
    if additional_elss > 0 then [elemELSS income tb deds] else []
  else []

/-- get_standard_tax_strategies: resolves the marginal bracket once from the
gross income, then appends the five conditional strategy blocks in source
order (80C, 80D, NPS, home loan, ELSS). -/
def get_standard_tax_strategies (income : ℚ) (deds : List TaxDeduction)
    (ctx : UserContext) : List Strategy :=
  let tb := tax_bracket_of income
  strategy80C income tb deds ++ strategy80D tb deds ctx ++
    strategyNPS income tb deds ++ strategyHomeLoan deds ++
    strategyELSS income tb deds

/-- Well-formedness of a slab table tail relative to the previous upper
limit: rates lie in [0, 30/100] and upper limits do not decrease. -/
def SlabsOK : ℚ → List (Option ℚ × ℚ) → Prop
  | _, [] => True
  | prev, (some l, rate) :: rest => (0 ≤ rate ∧ rate ≤ 30/100 ∧ prev ≤ l) ∧ SlabsOK l rest
  | _, (none, rate) :: _ => 0 ≤ rate ∧ rate ≤ 30/100

/-! Helper lemmas about the embedded definitions. -/

theorem pyRound_intCast (n : ℤ) : pyRound (n : ℚ) = n := by
  norm_num [pyRound]

theorem pyRound_eq_int (q : ℚ) (n : ℤ) (h : q = (n : ℚ)) : pyRound q = n :=
  h ▸ pyRound_intCast n

theorem base_tax_def (income : ℚ) :
    (calculate_indian_tax income).base_tax = slabTax income 0 tax_slabs := rfl

theorem cess_def (income : ℚ) :
    (calculate_indian_tax income).cess = slabTax income 0 tax_slabs * (4/100) := rfl

theorem total_tax_def (income : ℚ) :
    (calculate_indian_tax income).total_tax
      = slabTax income 0 tax_slabs + slabTax income 0 tax_slabs * (4/100) := rfl

theorem effective_rate_def (income : ℚ) :
    (calculate_indian_tax income).effective_rate
      = if income > 0
        then (slabTax income 0 tax_slabs + slabTax income 0 tax_slabs * (4/100)) / income * 100
        else 0 := rfl

theorem slabsOK_tax_slabs : SlabsOK 0 tax_slabs := by
  simp only [tax_slabs, SlabsOK]
  norm_num

theorem slabTax_nonneg (slabs : List (Option ℚ × ℚ)) :
    ∀ (prev r : ℚ), SlabsOK prev slabs → 0 ≤ slabTax r prev slabs := by
  induction slabs with
  | nil => intro prev r _; simp [slabTax]
  | cons hd tl ih =>
    intro prev r hok
    obtain ⟨lim, rate⟩ := hd
    cases lim with
    | none =>
      simp only [SlabsOK] at hok
      simp only [slabTax]
      split_ifs with hr
      · exact le_refl 0
      · exact mul_nonneg (by linarith) hok.1
    | some l =>
      simp only [SlabsOK] at hok
      obtain ⟨⟨hr0, _, hpl⟩, hrest⟩ := hok
      simp only [slabTax]
      split_ifs with hr
      · exact le_refl 0
      · push_neg at hr
        have ht0 : 0 ≤ min r (l - prev) := le_min hr.le (by linarith)
        have hrec := ih l (r - min r (l - prev)) hrest
        have hmul : 0 ≤ min r (l - prev) * rate := mul_nonneg ht0 hr0
        linarith

theorem slabTax_mono (slabs : List (Option ℚ × ℚ)) :
    ∀ (prev r1 r2 : ℚ), SlabsOK prev slabs → r1 ≤ r2 →
      slabTax r1 prev slabs ≤ slabTax r2 prev slabs := by
  induction slabs with
  | nil => intro prev r1 r2 _ _; simp [slabTax]
  | cons hd tl ih =>
    intro prev r1 r2 hok h12
    obtain ⟨lim, rate⟩ := hd
    cases lim with
    | none =>
      simp only [SlabsOK] at hok
      simp only [slabTax]
      split_ifs with ha hb hb
      · exact le_refl 0
      · exact mul_nonneg (by linarith) hok.1
      · linarith
      · exact mul_le_mul_of_nonneg_right h12 hok.1
    | some l =>
      simp only [SlabsOK] at hok
      obtain ⟨⟨hr0, hr3, hpl⟩, hrest⟩ := hok
      simp only [slabTax]
      split_ifs with ha hb hb
      · exact le_refl 0
      · push_neg at hb
        have ht0 : 0 ≤ min r2 (l - prev) := le_min hb.le (by linarith)
        have hrec := slabTax_nonneg tl l (r2 - min r2 (l - prev)) hrest
        have hmul : 0 ≤ min r2 (l - prev) * rate := mul_nonneg ht0 hr0
        linarith
      · linarith
      · push_neg at ha hb
        have hmin : min r1 (l - prev) ≤ min r2 (l - prev) := min_le_min h12 (le_refl _)
        have h1 : min r1 (l - prev) * rate ≤ min r2 (l - prev) * rate :=
          mul_le_mul_of_nonneg_right hmin hr0
        have h2 : r1 - min r1 (l - prev) ≤ r2 - min r2 (l - prev) := by
          rcases le_total r1 (l - prev) with hc | hc <;> rcases le_total r2 (l - prev) with hd | hd
          · rw [min_eq_left hc, min_eq_left hd]; linarith
          · rw [min_eq_left hc, min_eq_right hd]; linarith
          · rw [min_eq_right hc, min_eq_left hd]; linarith
          · rw [min_eq_right hc, min_eq_right hd]; linarith
        have h3 := ih l (r1 - min r1 (l - prev)) (r2 - min r2 (l - prev)) hrest h2
        linarith

theorem slabTax_le (slabs : List (Option ℚ × ℚ)) :
    ∀ (prev r : ℚ), SlabsOK prev slabs → 0 ≤ r → slabTax r prev slabs ≤ r * (30/100) := by
  induction slabs with
  | nil =>
    intro prev r _ hr
    simp only [slabTax]
    exact mul_nonneg hr (by norm_num)
  | cons hd tl ih =>
    intro prev r hok hr
    obtain ⟨lim, rate⟩ := hd
    cases lim with
    | none =>
      simp only [SlabsOK] at hok
      simp only [slabTax]
      split_ifs with ha
      · exact mul_nonneg hr (by norm_num)
      · exact mul_le_mul_of_nonneg_left hok.2 hr
    | some l =>
      simp only [SlabsOK] at hok
      obtain ⟨⟨hr0, hr3, hpl⟩, hrest⟩ := hok
      simp only [slabTax]
      split_ifs with ha
      · exact mul_nonneg hr (by norm_num)
      · push_neg at ha
        have ht0 : 0 ≤ min r (l - prev) := le_min hr (by linarith)
        have htr : min r (l - prev) ≤ r := min_le_left _ _
        have h1 : min r (l - prev) * rate ≤ min r (l - prev) * (30/100) :=
          mul_le_mul_of_nonneg_left hr3 ht0
        have h2 := ih l (r - min r (l - prev)) hrest (by linarith)
        linarith

theorem mem_strategies_cases {income : ℚ} {deds : List TaxDeduction} {ctx : UserContext}
    {s : Strategy} (hs : s ∈ get_standard_tax_strategies income deds ctx) :
    s ∈ strategy80C income (tax_bracket_of income) deds ∨
    s ∈ strategy80D (tax_bracket_of income) deds ctx ∨
    s ∈ strategyNPS income (tax_bracket_of income) deds ∨
    s ∈ strategyHomeLoan deds ∨
    s ∈ strategyELSS income (tax_bracket_of income) deds := by
  simpa [get_standard_tax_strategies, List.mem_append, or_assoc] using hs

theorem mem_strategy80C {income tb : ℚ} {deds : List TaxDeduction} {s : Strategy}
    (h : s ∈ strategy80C income tb deds) :
    300000 < income ∧ 0 < max 0 ((150000 : ℚ) - sumByCategories cats80C deds) ∧
      s = elem80C tb deds := by
  simp only [strategy80C] at h
  split_ifs at h with h1 h2
  · exact ⟨h1, h2, List.mem_singleton.mp h⟩
  · simp at h
  · simp at h

theorem mem_strategy80D {tb : ℚ} {deds : List TaxDeduction} {ctx : UserContext} {s : Strategy}
    (h : s ∈ strategy80D tb deds ctx) :
    0 < max 0 ((if ctx.age.getD 30 < 60 then (25000 : ℚ) else 50000)
        - sumByCategories ["Health Insurance"] deds) ∧
      s = elem80D tb deds ctx := by
  simp only [strategy80D] at h
  by_cases h1 : 0 < max 0 ((if ctx.age.getD 30 < 60 then (25000 : ℚ) else 50000)
      - sumByCategories ["Health Insurance"] deds)
  · rw [if_pos h1] at h
    exact ⟨h1, List.mem_singleton.mp h⟩
  · rw [if_neg h1] at h
    simp at h

theorem mem_strategyNPS {income tb : ℚ} {deds : List TaxDeduction} {s : Strategy}
    (h : s ∈ strategyNPS income tb deds) :
    500000 < income ∧ 0 < max 0 ((50000 : ℚ) - sumByCategories ["NPS"] deds) ∧
      s = elemNPS tb deds := by
  simp only [strategyNPS] at h
  split_ifs at h with h1 h2
  · exact ⟨h1, h2, List.mem_singleton.mp h⟩
  · simp at h
  · simp at h

theorem mem_strategyHomeLoan {deds : List TaxDeduction} {s : Strategy}
    (h : s ∈ strategyHomeLoan deds) :
    deds.any (fun d => d.category == "Home Loan Interest") = true ∧ s = elemHomeLoan deds := by
  simp only [strategyHomeLoan] at h
  split_ifs at h with h1
  · exact ⟨h1, List.mem_singleton.mp h⟩
  · simp at h

theorem mem_strategyELSS {income tb : ℚ} {deds : List TaxDeduction} {s : Strategy}
    (h : s ∈ strategyELSS income tb deds) :
    600000 < income ∧
      0 < max 0 (min (150000 : ℚ) (income * (1/10)) - sumByCategories ["ELSS"] deds) ∧
      s = elemELSS income tb deds := by
  simp only [strategyELSS] at h
  split_ifs at h with h1 h2
  · exact ⟨h1, h2, List.mem_singleton.mp h⟩
  · simp at h
  · simp at h

/-! Evaluations of the embedded functions at the concrete inputs used by the
claims below. -/

theorem pyRound_c5arg : pyRound (324961/125 : ℚ) = 2600 := by
  have hf : ⌊(324961/125 : ℚ)⌋ = 2599 := by
    rw [Int.floor_eq_iff]
    norm_num
  norm_num [pyRound, hf]

theorem slabTax_900000 : slabTax 900000 0 tax_slabs = 30000 := by
  norm_num [slabTax, tax_slabs, min_def]

theorem gen_empty : get_standard_tax_strategies 1000000 [] { age := none } =
    [elem80C (1/10) [], elem80D (1/10) [] { age := none }, elemNPS (1/10) [],
     elemELSS 1000000 (1/10) []] := by
  norm_num [get_standard_tax_strategies, tax_bracket_of, strategy80C, strategy80D, strategyNPS,
    strategyHomeLoan, strategyELSS, sumByCategories, max_def, min_def]

theorem gen_ppf_ineligible :
    get_standard_tax_strategies 1000000 [⟨"PPF", 100000, false⟩] { age := none } =
    [elem80C (1/10) [⟨"PPF", 100000, false⟩],
     elem80D (1/10) [⟨"PPF", 100000, false⟩] { age := none },
     elemNPS (1/10) [⟨"PPF", 100000, false⟩],
     elemELSS 1000000 (1/10) [⟨"PPF", 100000, false⟩]] := by
  simp only [get_standard_tax_strategies, strategy80C, strategy80D, strategyNPS,
    strategyHomeLoan, strategyELSS, sumByCategories, cats80C]
  norm_num [tax_bracket_of, max_def, min_def]
  simp

theorem gen_ppf_over :
    get_standard_tax_strategies 1000000 [⟨"PPF", 200000, true⟩] { age := none } =
    [elem80D (1/10) [⟨"PPF", 200000, true⟩] { age := none },
     elemNPS (1/10) [⟨"PPF", 200000, true⟩],
     elemELSS 1000000 (1/10) [⟨"PPF", 200000, true⟩]] := by
  simp only [get_standard_tax_strategies, strategy80C, strategy80D, strategyNPS,
    strategyHomeLoan, strategyELSS, sumByCategories, cats80C]
  norm_num [tax_bracket_of, max_def, min_def]
  simp

theorem gen_hli_over :
    get_standard_tax_strategies 1000000 [⟨"Home Loan Interest", 250000, true⟩] { age := none } =
    [elem80C (1/10) [⟨"Home Loan Interest", 250000, true⟩],
     elem80D (1/10) [⟨"Home Loan Interest", 250000, true⟩] { age := none },
     elemNPS (1/10) [⟨"Home Loan Interest", 250000, true⟩],
     elemHomeLoan [⟨"Home Loan Interest", 250000, true⟩],
     elemELSS 1000000 (1/10) [⟨"Home Loan Interest", 250000, true⟩]] := by
  simp only [get_standard_tax_strategies, strategy80C, strategy80D, strategyNPS,
    strategyHomeLoan, strategyELSS, sumByCategories, cats80C]
  norm_num [tax_bracket_of, max_def, min_def]
  simp

theorem gen_hli_inside :
    get_standard_tax_strategies 1000000 [⟨"Home Loan Interest", 100000, true⟩] { age := none } =
    [elem80C (1/10) [⟨"Home Loan Interest", 100000, true⟩],
     elem80D (1/10) [⟨"Home Loan Interest", 100000, true⟩] { age := none },
     elemNPS (1/10) [⟨"Home Loan Interest", 100000, true⟩],
     elemHomeLoan [⟨"Home Loan Interest", 100000, true⟩],
     elemELSS 1000000 (1/10) [⟨"Home Loan Interest", 100000, true⟩]] := by
  simp only [get_standard_tax_strategies, strategy80C, strategy80D, strategyNPS,
    strategyHomeLoan, strategyELSS, sumByCategories, cats80C]
  norm_num [tax_bracket_of, max_def, min_def]
  simp

theorem gen_hi3 :
    get_standard_tax_strategies 1000000 [⟨"Health Insurance", 3, true⟩] { age := none } =
    [elem80C (1/10) [⟨"Health Insurance", 3, true⟩],
     elem80D (1/10) [⟨"Health Insurance", 3, true⟩] { age := none },
     elemNPS (1/10) [⟨"Health Insurance", 3, true⟩],
     elemELSS 1000000 (1/10) [⟨"Health Insurance", 3, true⟩]] := by
  simp only [get_standard_tax_strategies, strategy80C, strategy80D, strategyNPS,
    strategyHomeLoan, strategyELSS, sumByCategories, cats80C]
  norm_num [tax_bracket_of, max_def, min_def]
  simp

theorem gen_senior : get_standard_tax_strategies 1000000 [] { age := some 65 } =
    [elem80C (1/10) [], elem80D (1/10) [] { age := some 65 }, elemNPS (1/10) [],
     elemELSS 1000000 (1/10) []] := by
  norm_num [get_standard_tax_strategies, tax_bracket_of, strategy80C, strategy80D, strategyNPS,
    strategyHomeLoan, strategyELSS, sumByCategories, max_def, min_def]

theorem gen_negative : get_standard_tax_strategies (-1000) [] { age := none } =
    [elem80D 0 [] { age := none }] := by
  norm_num [get_standard_tax_strategies, tax_bracket_of, strategy80C, strategy80D, strategyNPS,
    strategyHomeLoan, strategyELSS, sumByCategories, max_def, min_def]

/-- C6: for every income exactly equal to a bracket upper bound B, the
calculator taxes the whole income within the slabs up to and including the
one ending at B (full lower-slab contributions, nothing at the next rate),
and the bracket resolver returns the lower slab rate at exactly B, agreeing
with the calculator boundary convention. -/
theorem c6_boundary_convention :
    ((calculate_indian_tax 400000).base_tax = 400000 * (0 : ℚ) ∧
      tax_bracket_of 400000 = 0) ∧
    ((calculate_indian_tax 800000).base_tax = 400000 * (0 : ℚ) + 400000 * (5/100) ∧
      tax_bracket_of 800000 = 5/100) ∧
    ((calculate_indian_tax 1200000).base_tax
        = 400000 * (0 : ℚ) + 400000 * (5/100) + 400000 * (10/100) ∧
      tax_bracket_of 1200000 = 10/100) ∧
    ((calculate_indian_tax 1600000).base_tax
        = 400000 * (0 : ℚ) + 400000 * (5/100) + 400000 * (10/100) + 400000 * (15/100) ∧
      tax_bracket_of 1600000 = 15/100) ∧
    ((calculate_indian_tax 2000000).base_tax
        = 400000 * (0 : ℚ) + 400000 * (5/100) + 400000 * (10/100) + 400000 * (15/100)
          + 400000 * (20/100) ∧
      tax_bracket_of 2000000 = 20/100) ∧
    ((calculate_indian_tax 2400000).base_tax
        = 400000 * (0 : ℚ) + 400000 * (5/100) + 400000 * (10/100) + 400000 * (15/100)
          + 400000 * (20/100) + 400000 * (25/100) ∧
      tax_bracket_of 2400000 = 25/100) := by
  refine ⟨⟨?_, ?_⟩, ⟨?_, ?_⟩, ⟨?_, ?_⟩, ⟨?_, ?_⟩, ⟨?_, ?_⟩, ⟨?_, ?_⟩⟩ <;>
    norm_num [calculate_indian_tax, slabTax, tax_slabs, tax_bracket_of, min_def]

/-- C7: total tax with cess is monotone in income: for 0 <= income1 < income2
the total tax at income1 is at most the total tax at income2. -/
theorem c7_tax_monotone (i1 i2 : ℚ) (h0 : 0 ≤ i1) (h12 : i1 < i2) :
    (calculate_indian_tax i1).total_tax ≤ (calculate_indian_tax i2).total_tax := by
  have hm := slabTax_mono tax_slabs 0 i1 i2 slabsOK_tax_slabs h12.le
  rw [total_tax_def, total_tax_def]
  linarith

/-- Witness for C7 at incomes 0 and 900000. -/
theorem c7_tax_monotone_witness :
    (0 : ℚ) ≤ 0 ∧ (0 : ℚ) < 900000 ∧
      (calculate_indian_tax 0).total_tax ≤ (calculate_indian_tax 900000).total_tax :=
  ⟨le_refl 0, by norm_num, c7_tax_monotone 0 900000 (le_refl 0) (by norm_num)⟩

/-- C8: at income 900000 the calculator returns base tax
400000*0 + 400000*5% + 100000*10% = 30000, cess 1200, total tax 31200 and an
effective rate of about 3.467 (percent). -/
theorem c8_example_900000 :
    (calculate_indian_tax 900000).base_tax
        = 400000 * (0 : ℚ) + 400000 * (5/100) + 100000 * (10/100) ∧
    (calculate_indian_tax 900000).base_tax = 30000 ∧
    (calculate_indian_tax 900000).cess = 1200 ∧
    (calculate_indian_tax 900000).total_tax = 31200 ∧
    |(calculate_indian_tax 900000).effective_rate - 3467/1000| < 1/1000 := by
  refine ⟨?_, ?_, ?_, ?_, ?_⟩
  · rw [base_tax_def, slabTax_900000]; norm_num
  · rw [base_tax_def, slabTax_900000]
  · rw [cess_def, slabTax_900000]; norm_num
  · rw [total_tax_def, slabTax_900000]; norm_num
  · rw [effective_rate_def, if_pos (by norm_num : (900000 : ℚ) > 0), slabTax_900000, abs_lt]
    constructor <;> norm_num

/-- C9: at income 0 the calculator returns all-zero figures and the guarded
effective rate is 0 with no division performed. -/
theorem c9_zero_income :
    calculate_indian_tax 0 = { base_tax := 0, cess := 0, total_tax := 0, effective_rate := 0 } := by
  norm_num [calculate_indian_tax, slabTax, tax_slabs]

/-- C10: with no age in the profile the generator defaults the age to 30, so
the emitted Section 80D strategy carries self/family cap 25000 and parents
cap 25000 and its headroom is computed from the 25000 cap; with age at least
60 both caps are 50000 and the headroom uses 50000. -/
theorem c10_age_caps (income : ℚ) (deds : List TaxDeduction) (a : ℚ) (s t : Strategy)
    (ha : 60 ≤ a)
    (hs : s ∈ get_standard_tax_strategies income deds { age := none })
    (ht : t ∈ get_standard_tax_strategies income deds { age := some a })
    (hs2 : s.self_family_limit ≠ none) (ht2 : t.self_family_limit ≠ none) :
    s.self_family_limit = some 25000 ∧ s.parents_additional_limit = some 25000 ∧
    s.recommended_contribution
        = some (pyRound (max 0 ((25000 : ℚ) - sumByCategories ["Health Insurance"] deds))) ∧
    t.self_family_limit = some 50000 ∧ t.parents_additional_limit = some 50000 ∧
    t.recommended_contribution
        = some (pyRound (max 0 ((50000 : ℚ) - sumByCategories ["Health Insurance"] deds))) := by
  have hna : ¬ (a < 60) := not_lt.mpr ha
  have Hs : s.self_family_limit = some 25000 ∧ s.parents_additional_limit = some 25000 ∧
      s.recommended_contribution
        = some (pyRound (max 0 ((25000 : ℚ) - sumByCategories ["Health Insurance"] deds))) := by
    rcases mem_strategies_cases hs with h | h | h | h | h
    · obtain ⟨-, -, rfl⟩ := mem_strategy80C h
      exact (hs2 rfl).elim
    · obtain ⟨-, rfl⟩ := mem_strategy80D h
      refine ⟨?_, ?_, ?_⟩ <;> norm_num [elem80D]
    · obtain ⟨-, -, rfl⟩ := mem_strategyNPS h
      exact (hs2 rfl).elim
    · obtain ⟨-, rfl⟩ := mem_strategyHomeLoan h
      exact (hs2 rfl).elim
    · obtain ⟨-, -, rfl⟩ := mem_strategyELSS h
      exact (hs2 rfl).elim
  have Ht : t.self_family_limit = some 50000 ∧ t.parents_additional_limit = some 50000 ∧
      t.recommended_contribution
        = some (pyRound (max 0 ((50000 : ℚ) - sumByCategories ["Health Insurance"] deds))) := by
    rcases mem_strategies_cases ht with h | h | h | h | h
    · obtain ⟨-, -, rfl⟩ := mem_strategy80C h
      exact (ht2 rfl).elim
    · obtain ⟨-, rfl⟩ := mem_strategy80D h
      refine ⟨?_, ?_, ?_⟩ <;> norm_num [elem80D, hna]
    · obtain ⟨-, -, rfl⟩ := mem_strategyNPS h
      exact (ht2 rfl).elim
    · obtain ⟨-, rfl⟩ := mem_strategyHomeLoan h
      exact (ht2 rfl).elim
    · obtain ⟨-, -, rfl⟩ := mem_strategyELSS h
      exact (ht2 rfl).elim
  exact ⟨Hs.1, Hs.2.1, Hs.2.2, Ht.1, Ht.2.1, Ht.2.2⟩

/-- Witness for C10 at income 1000000, no deductions, age 65. -/
theorem c10_age_caps_witness :
    (60 : ℚ) ≤ 65 ∧
    elem80D (1/10) [] { age := none } ∈ get_standard_tax_strategies 1000000 [] { age := none } ∧
    elem80D (1/10) [] { age := some 65 }
        ∈ get_standard_tax_strategies 1000000 [] { age := some 65 } ∧
    (elem80D (1/10) [] { age := none }).self_family_limit ≠ none ∧
    (elem80D (1/10) [] { age := some 65 }).self_family_limit ≠ none ∧
    ((elem80D (1/10) [] { age := none }).self_family_limit = some 25000 ∧
      (elem80D (1/10) [] { age := none }).parents_additional_limit = some 25000 ∧
      (elem80D (1/10) [] { age := none }).recommended_contribution
          = some (pyRound (max 0 ((25000 : ℚ) - sumByCategories ["Health Insurance"] []))) ∧
      (elem80D (1/10) [] { age := some 65 }).self_family_limit = some 50000 ∧
      (elem80D (1/10) [] { age := some 65 }).parents_additional_limit = some 50000 ∧
      (elem80D (1/10) [] { age := some 65 }).recommended_contribution
          = some (pyRound (max 0 ((50000 : ℚ) - sumByCategories ["Health Insurance"] [])))) :=
  ⟨by norm_num,
   by rw [gen_empty]; simp,
   by rw [gen_senior]; simp,
   by norm_num [elem80D]; exact Option.some_ne_none _,
   by norm_num [elem80D]; exact Option.some_ne_none _,
   c10_age_caps 1000000 [] 65 (elem80D (1/10) [] { age := none })
     (elem80D (1/10) [] { age := some 65 }) (by norm_num)
     (by rw [gen_empty]; simp) (by rw [gen_senior]; simp)
     (by norm_num [elem80D]; exact Option.some_ne_none _)
     (by norm_num [elem80D]; exact Option.some_ne_none _)⟩

/-- Helper for C4: the 80C category sum of a single eligible 200000 PPF
deduction is 200000 (not clamped). -/
theorem sum80C_ppf_over : sumByCategories cats80C [⟨"PPF", 200000, true⟩] = 200000 := by
  simp [sumByCategories, cats80C]

/-- Helper for C4: the clamped 80C headroom of that deduction list is 0. -/
theorem headroom80C_ppf_over :
    max 0 ((150000 : ℚ) - sumByCategories cats80C [⟨"PPF", 200000, true⟩]) = 0 := by
  rw [sum80C_ppf_over]
  norm_num [max_def]

/-- Helper for C4: with the 80C cap exceeded, no emitted strategy carries the
80C current-utilization field. -/
theorem no80C_when_over_cap :
    (get_standard_tax_strategies 1000000 [⟨"PPF", 200000, true⟩] { age := none }).all
      (fun t => t.current_utilization.isNone) = true := by
  rw [gen_ppf_over]
  simp [elem80D, elemNPS, elemELSS]

/-- C1 counterexample: a deduction with eligible = false in an 80C category
is counted by the strategy generator: the 80C category sum is 100000, and the
emitted 80C strategy reports current utilization 100000 instead of the 0 it
reports when the record is absent. -/
theorem c1_ineligible_cex :
    sumByCategories cats80C [⟨"PPF", 100000, false⟩] = 100000 ∧
    (get_standard_tax_strategies 1000000 [⟨"PPF", 100000, false⟩] { age := none }).map
        Strategy.current_utilization = [some 100000, none, none, none] ∧
    (get_standard_tax_strategies 1000000 [] { age := none }).map Strategy.current_utilization
      = [some 0, none, none, none] := by
  have h1 : pyRound ((100000 : ℚ)) = 100000 := pyRound_eq_int _ _ (by norm_num)
  have h0 : pyRound ((0 : ℚ)) = 0 := pyRound_eq_int _ _ (by norm_num)
  refine ⟨?_, ?_, ?_⟩
  · simp [sumByCategories, cats80C]
  · rw [gen_ppf_ineligible]
    simp [elem80C, elem80D, elemNPS, elemELSS, sumByCategories, cats80C, max_def]
    norm_num [h1]
  · rw [gen_empty]
    simp [elem80C, elem80D, elemNPS, elemELSS, sumByCategories, cats80C, max_def]
    norm_num [h0]

/-- C1 amended: eligibility gates only the endpoint totals: an ineligible
record changes neither total_eligible_deductions nor the post-deduction tax,
while the generator category sums count any record whose category matches,
eligible or not. -/
theorem c1_ineligible_amended (income : ℚ) (d : TaxDeduction) (deds : List TaxDeduction)
    (cats : List String) (h : d.eligible = false) :
    total_eligible_deductions (d :: deds) = total_eligible_deductions deds ∧
    tax_after_deductions income (d :: deds) = tax_after_deductions income deds ∧
    sumByCategories cats (d :: deds)
      = (if cats.contains d.category then d.amount else 0) + sumByCategories cats deds := by
  have h1 : total_eligible_deductions (d :: deds) = total_eligible_deductions deds := by
    simp [total_eligible_deductions, List.filter_cons, h]
  refine ⟨h1, ?_, ?_⟩
  · unfold tax_after_deductions
    rw [h1]
  · by_cases hc : d.category ∈ cats
    · simp [sumByCategories, List.filter_cons, hc]
    · simp [sumByCategories, List.filter_cons, hc]

/-- Witness for C1 amended, at the ineligible 100000 PPF record. -/
theorem c1_ineligible_witness :
    ({ category := "PPF", amount := 100000, eligible := false } : TaxDeduction).eligible = false ∧
    (total_eligible_deductions [⟨"PPF", 100000, false⟩] = total_eligible_deductions [] ∧
     tax_after_deductions 900000 [⟨"PPF", 100000, false⟩] = tax_after_deductions 900000 [] ∧
     sumByCategories cats80C [⟨"PPF", 100000, false⟩]
       = (if cats80C.contains ("PPF") then (100000 : ℚ) else 0) + sumByCategories cats80C []) :=
  ⟨rfl, c1_ineligible_amended 900000 ⟨"PPF", 100000, false⟩ [] cats80C rfl⟩

/-- C2 counterexample: at income -1000 nothing fails: the calculator returns
the all-zero result record and the generator returns a normal one-strategy
list (the Section 80D block has no income gate). -/
theorem c2_negative_income_cex :
    calculate_indian_tax (-1000)
        = { base_tax := 0, cess := 0, total_tax := 0, effective_rate := 0 } ∧
    get_standard_tax_strategies (-1000) [] { age := none } = [elem80D 0 [] { age := none }] := by
  constructor
  · norm_num [calculate_indian_tax, slabTax, tax_slabs]
  · exact gen_negative

/-- C2 amended: negative income is not validated: the calculator returns the
all-zero result (the slab walk is skipped and the rate guard yields 0), and
the generator proceeds with a 0 marginal bracket, emitting exactly the
Section 80D block and the home-loan block outputs. -/
theorem c2_negative_income_amended (income : ℚ) (deds : List TaxDeduction) (ctx : UserContext)
    (h : income < 0) :
    calculate_indian_tax income
        = { base_tax := 0, cess := 0, total_tax := 0, effective_rate := 0 } ∧
    get_standard_tax_strategies income deds ctx
        = strategy80D 0 deds ctx ++ strategyHomeLoan deds := by
  have hS : slabTax income 0 tax_slabs = 0 := by
    simp only [tax_slabs, slabTax]
    rw [if_pos h.le]
  have hb : tax_bracket_of income = 0 := by
    unfold tax_bracket_of
    rw [if_neg (by linarith), if_neg (by linarith), if_neg (by linarith), if_neg (by linarith),
      if_neg (by linarith), if_neg (by linarith)]
  constructor
  · have hneg : ¬ income > 0 := by linarith
    simp [calculate_indian_tax, hS, hneg]
  · have h80c : strategy80C income 0 deds = [] := by
      simp only [strategy80C]
      rw [if_neg (by linarith : ¬ income > 300000)]
    have hnps : strategyNPS income 0 deds = [] := by
      simp only [strategyNPS]
      rw [if_neg (by linarith : ¬ income > 500000)]
    have helss : strategyELSS income 0 deds = [] := by
      simp only [strategyELSS]
      rw [if_neg (by linarith : ¬ income > 600000)]
    simp only [get_standard_tax_strategies, hb, h80c, hnps, helss, List.nil_append,
      List.append_nil, List.append_assoc]

/-- Witness for C2 amended at income -1000. -/
theorem c2_negative_income_witness :
    (-1000 : ℚ) < 0 ∧
    (calculate_indian_tax (-1000)
        = { base_tax := 0, cess := 0, total_tax := 0, effective_rate := 0 } ∧
      get_standard_tax_strategies (-1000) [] { age := none }
        = strategy80D 0 [] { age := none } ++ strategyHomeLoan []) :=
  ⟨by norm_num, c2_negative_income_amended (-1000) [] { age := none } (by norm_num)⟩

/-- C3 counterexample: at income 900000 the stored effective rate is the
percentage 52/15 (about 3.467), which is neither bounded by 1 nor equal to
total tax divided by income. -/
theorem c3_effective_rate_cex :
    (calculate_indian_tax 900000).effective_rate = 52/15 ∧
    ¬ (calculate_indian_tax 900000).effective_rate ≤ 1 ∧
    (calculate_indian_tax 900000).effective_rate
      ≠ (calculate_indian_tax 900000).total_tax / 900000 := by
  have he : (calculate_indian_tax 900000).effective_rate = 52/15 := by
    rw [effective_rate_def, if_pos (by norm_num : (900000 : ℚ) > 0), slabTax_900000]
    norm_num
  have ht : (calculate_indian_tax 900000).total_tax = 31200 := by
    rw [total_tax_def, slabTax_900000]
    norm_num
  refine ⟨he, ?_, ?_⟩
  · rw [he]
    norm_num
  · rw [he, ht]
    norm_num

/-- C3 amended: for income at least 0 the total tax is nonnegative and the
effective rate is a percentage in [0, 100], equal to total_tax/income*100
for positive income and to 0 at income 0. -/
theorem c3_effective_rate_amended (income : ℚ) (h : 0 ≤ income) :
    0 ≤ (calculate_indian_tax income).total_tax ∧
    0 ≤ (calculate_indian_tax income).effective_rate ∧
    (calculate_indian_tax income).effective_rate ≤ 100 ∧
    (0 < income → (calculate_indian_tax income).effective_rate
        = (calculate_indian_tax income).total_tax / income * 100) ∧
    (income = 0 → (calculate_indian_tax income).effective_rate = 0) := by
  have hb0 : 0 ≤ slabTax income 0 tax_slabs := slabTax_nonneg tax_slabs 0 income slabsOK_tax_slabs
  have hble : slabTax income 0 tax_slabs ≤ income * (30/100) :=
    slabTax_le tax_slabs 0 income slabsOK_tax_slabs h
  rw [total_tax_def, effective_rate_def]
  by_cases hpos : income > 0
  · rw [if_pos hpos]
    have htot : slabTax income 0 tax_slabs + slabTax income 0 tax_slabs * (4/100) ≤ income := by
      linarith
    have hd0 : 0 ≤ (slabTax income 0 tax_slabs + slabTax income 0 tax_slabs * (4/100)) / income :=
      div_nonneg (by linarith) hpos.le
    have hd1 : (slabTax income 0 tax_slabs + slabTax income 0 tax_slabs * (4/100)) / income ≤ 1 :=
      (div_le_one hpos).mpr htot
    refine ⟨by linarith, by linarith, by linarith, fun _ => rfl,
      fun h0 => absurd (h0 ▸ hpos) (lt_irrefl 0)⟩
  · rw [if_neg hpos]
    exact ⟨by linarith, le_refl 0, by norm_num, fun hc => absurd hc hpos, fun _ => rfl⟩

/-- Witness for C3 amended at income 900000. -/
theorem c3_effective_rate_witness :
    (0 : ℚ) ≤ 900000 ∧
    (0 ≤ (calculate_indian_tax 900000).total_tax ∧
     0 ≤ (calculate_indian_tax 900000).effective_rate ∧
     (calculate_indian_tax 900000).effective_rate ≤ 100 ∧
     ((0 : ℚ) < 900000 → (calculate_indian_tax 900000).effective_rate
        = (calculate_indian_tax 900000).total_tax / 900000 * 100) ∧
     ((900000 : ℚ) = 0 → (calculate_indian_tax 900000).effective_rate = 0)) :=
  ⟨by norm_num, c3_effective_rate_amended 900000 (by norm_num)⟩

/-- C4 counterexample: a home-loan deduction of 250000 exceeds the 200000
cap, so its clamped headroom is 0, yet the generator still emits the home
loan strategy (the only strategy carrying current_deduction). -/
theorem c4_headroom_cex :
    max 0 ((200000 : ℚ)
        - sumByCategories ["Home Loan Interest"] [⟨"Home Loan Interest", 250000, true⟩]) = 0 ∧
    (get_standard_tax_strategies 1000000 [⟨"Home Loan Interest", 250000, true⟩]
        { age := none }).any (fun s => s.current_deduction.isSome) = true := by
  constructor
  · simp [sumByCategories]
    norm_num [max_def]
  · rw [gen_hli_over]
    simp [elem80C, elem80D, elemNPS, elemHomeLoan, elemELSS]

/-- C4 amended: the four gated blocks (80C, 80D, NPS, ELSS) emit a strategy
only when their clamped headroom is positive; utilization itself is not
clamped (200000 stays 200000, only the headroom is floored at 0, and then no
80C strategy appears); the home-loan strategy is emitted from mere presence
of the category, regardless of headroom. -/
theorem c4_headroom_amended (income : ℚ) (deds : List TaxDeduction) (ctx : UserContext)
    (s : Strategy) (hs : s ∈ get_standard_tax_strategies income deds ctx) :
    (s.current_utilization ≠ none →
        0 < max 0 ((150000 : ℚ) - sumByCategories cats80C deds)) ∧
    (s.self_family_limit ≠ none →
        0 < max 0 ((if ctx.age.getD 30 < 60 then (25000 : ℚ) else 50000)
            - sumByCategories ["Health Insurance"] deds)) ∧
    (s.additional_to_80c = true →
        0 < max 0 ((50000 : ℚ) - sumByCategories ["NPS"] deds)) ∧
    (s.lock_in_period ≠ none →
        0 < max 0 (min (150000 : ℚ) (income * (1/10)) - sumByCategories ["ELSS"] deds)) ∧
    sumByCategories cats80C [⟨"PPF", 200000, true⟩] = 200000 ∧
    max 0 ((150000 : ℚ) - sumByCategories cats80C [⟨"PPF", 200000, true⟩]) = 0 ∧
    (get_standard_tax_strategies 1000000 [⟨"PPF", 200000, true⟩] { age := none }).all
        (fun t => t.current_utilization.isNone) = true := by
  have H : (s.current_utilization ≠ none →
        0 < max 0 ((150000 : ℚ) - sumByCategories cats80C deds)) ∧
      (s.self_family_limit ≠ none →
        0 < max 0 ((if ctx.age.getD 30 < 60 then (25000 : ℚ) else 50000)
            - sumByCategories ["Health Insurance"] deds)) ∧
      (s.additional_to_80c = true →
        0 < max 0 ((50000 : ℚ) - sumByCategories ["NPS"] deds)) ∧
      (s.lock_in_period ≠ none →
        0 < max 0 (min (150000 : ℚ) (income * (1/10)) - sumByCategories ["ELSS"] deds)) := by
    rcases mem_strategies_cases hs with h | h | h | h | h
    · obtain ⟨h1, h2, rfl⟩ := mem_strategy80C h
      exact ⟨fun _ => h2, fun hc => by simp [elem80C] at hc, fun hc => by simp [elem80C] at hc,
        fun hc => by simp [elem80C] at hc⟩
    · obtain ⟨h1, rfl⟩ := mem_strategy80D h
      exact ⟨fun hc => by simp [elem80D] at hc, fun _ => h1, fun hc => by simp [elem80D] at hc,
        fun hc => by simp [elem80D] at hc⟩
    · obtain ⟨h1, h2, rfl⟩ := mem_strategyNPS h
      exact ⟨fun hc => by simp [elemNPS] at hc, fun hc => by simp [elemNPS] at hc,
        fun _ => h2, fun hc => by simp [elemNPS] at hc⟩
    · obtain ⟨h1, rfl⟩ := mem_strategyHomeLoan h
      exact ⟨fun hc => by simp [elemHomeLoan] at hc, fun hc => by simp [elemHomeLoan] at hc,
        fun hc => by simp [elemHomeLoan] at hc, fun hc => by simp [elemHomeLoan] at hc⟩
    · obtain ⟨h1, h2, rfl⟩ := mem_strategyELSS h
      exact ⟨fun hc => by simp [elemELSS] at hc, fun hc => by simp [elemELSS] at hc,
        fun hc => by simp [elemELSS] at hc, fun _ => h2⟩
  exact ⟨H.1, H.2.1, H.2.2.1, H.2.2.2, sum80C_ppf_over, headroom80C_ppf_over, no80C_when_over_cap⟩

/-- Witness for C4 amended with the emitted 80C strategy at income 1000000. -/
theorem c4_headroom_witness :
    elem80C (1/10) [] ∈ get_standard_tax_strategies 1000000 [] { age := none } ∧
    (((elem80C (1/10) []).current_utilization ≠ none →
        0 < max 0 ((150000 : ℚ) - sumByCategories cats80C [])) ∧
     ((elem80C (1/10) []).self_family_limit ≠ none →
        0 < max 0 ((if ({ age := none } : UserContext).age.getD 30 < 60 then (25000 : ℚ)
            else 50000) - sumByCategories ["Health Insurance"] [])) ∧
     ((elem80C (1/10) []).additional_to_80c = true →
        0 < max 0 ((50000 : ℚ) - sumByCategories ["NPS"] [])) ∧
     ((elem80C (1/10) []).lock_in_period ≠ none →
        0 < max 0 (min (150000 : ℚ) ((1000000 : ℚ) * (1/10)) - sumByCategories ["ELSS"] [])) ∧
     sumByCategories cats80C [⟨"PPF", 200000, true⟩] = 200000 ∧
     max 0 ((150000 : ℚ) - sumByCategories cats80C [⟨"PPF", 200000, true⟩]) = 0 ∧
     (get_standard_tax_strategies 1000000 [⟨"PPF", 200000, true⟩] { age := none }).all
        (fun t => t.current_utilization.isNone) = true) :=
  ⟨by rw [gen_empty]; simp,
   c4_headroom_amended 1000000 [] { age := none } (elem80C (1/10) []) (by rw [gen_empty]; simp)⟩

/-- C5 counterexample: the home-loan strategy is emitted with no potential
savings value although the headroom formula gives 10400; the 80D savings is
the rounded 2600 while the unrounded formula value is not 2600; the ELSS
strategy bases savings on min(150000, 10 percent of income), giving 10400
where the statutory 150000 cap would give 15600. -/
theorem c5_savings_cex :
    (get_standard_tax_strategies 1000000 [⟨"Home Loan Interest", 100000, true⟩]
        { age := none }).any (fun s => s.current_deduction.isSome && s.potential_savings.isNone)
      = true ∧
    max 0 ((200000 : ℚ)
        - sumByCategories ["Home Loan Interest"] [⟨"Home Loan Interest", 100000, true⟩])
      * tax_bracket_of 1000000 * (104/100) = 10400 ∧
    (get_standard_tax_strategies 1000000 [⟨"Health Insurance", 3, true⟩] { age := none }).any
        (fun s => s.self_family_limit.isSome && s.potential_savings == some 2600) = true ∧
    max 0 ((25000 : ℚ) - sumByCategories ["Health Insurance"] [⟨"Health Insurance", 3, true⟩])
      * tax_bracket_of 1000000 * (104/100) ≠ (2600 : ℚ) ∧
    (get_standard_tax_strategies 1000000 [] { age := none }).any
        (fun s => s.lock_in_period.isSome && s.potential_savings == some 10400) = true ∧
    (150000 : ℚ) * tax_bracket_of 1000000 * (104/100) = 15600 := by
  have h10400 : pyRound ((10400 : ℚ)) = 10400 := pyRound_eq_int _ _ (by norm_num)
  refine ⟨?_, ?_, ?_, ?_, ?_, ?_⟩
  · rw [gen_hli_inside]
    simp [elem80C, elem80D, elemNPS, elemHomeLoan, elemELSS]
  · simp [sumByCategories]
    norm_num [tax_bracket_of, max_def]
  · rw [gen_hi3]
    simp [elem80C, elem80D, elemNPS, elemELSS, sumByCategories, max_def]
    norm_num [pyRound_c5arg]
  · simp [sumByCategories]
    norm_num [tax_bracket_of, max_def]
  · rw [gen_empty]
    simp [elem80C, elem80D, elemNPS, elemELSS, sumByCategories, max_def, min_def]
    norm_num [h10400]
  · norm_num [tax_bracket_of]

/-- C5 amended: every strategy carrying a savings value (80C, 80D, NPS,
ELSS) stores the rounded value of headroom times the single marginal rate
resolved once from gross income times 1.04, where the ELSS headroom uses the
cap min(150000, income/10); the home-loan strategy carries no savings. -/
theorem c5_savings_amended (income : ℚ) (deds : List TaxDeduction) (ctx : UserContext)
    (s : Strategy) (hs : s ∈ get_standard_tax_strategies income deds ctx) :
    (s.current_utilization ≠ none → s.potential_savings
        = some (pyRound (max 0 ((150000 : ℚ) - sumByCategories cats80C deds)
            * tax_bracket_of income * (104/100)))) ∧
    (s.self_family_limit ≠ none → s.potential_savings
        = some (pyRound (max 0 ((if ctx.age.getD 30 < 60 then (25000 : ℚ) else 50000)
            - sumByCategories ["Health Insurance"] deds) * tax_bracket_of income * (104/100)))) ∧
    (s.additional_to_80c = true → s.potential_savings
        = some (pyRound (max 0 ((50000 : ℚ) - sumByCategories ["NPS"] deds)
            * tax_bracket_of income * (104/100)))) ∧
    (s.lock_in_period ≠ none → s.potential_savings
        = some (pyRound (max 0 (min (150000 : ℚ) (income * (1/10))
            - sumByCategories ["ELSS"] deds) * tax_bracket_of income * (104/100)))) ∧
    (s.current_deduction ≠ none → s.potential_savings = none) := by
  rcases mem_strategies_cases hs with h | h | h | h | h
  · obtain ⟨h1, h2, rfl⟩ := mem_strategy80C h
    exact ⟨fun _ => rfl, fun hc => by simp [elem80C] at hc, fun hc => by simp [elem80C] at hc,
      fun hc => by simp [elem80C] at hc, fun hc => by simp [elem80C] at hc⟩
  · obtain ⟨h1, rfl⟩ := mem_strategy80D h
    exact ⟨fun hc => by simp [elem80D] at hc, fun _ => rfl, fun hc => by simp [elem80D] at hc,
      fun hc => by simp [elem80D] at hc, fun hc => by simp [elem80D] at hc⟩
  · obtain ⟨h1, h2, rfl⟩ := mem_strategyNPS h
    exact ⟨fun hc => by simp [elemNPS] at hc, fun hc => by simp [elemNPS] at hc,
      fun _ => rfl, fun hc => by simp [elemNPS] at hc, fun hc => by simp [elemNPS] at hc⟩
  · obtain ⟨h1, rfl⟩ := mem_strategyHomeLoan h
    exact ⟨fun hc => by simp [elemHomeLoan] at hc, fun hc => by simp [elemHomeLoan] at hc,
      fun hc => by simp [elemHomeLoan] at hc, fun hc => by simp [elemHomeLoan] at hc,
      fun _ => rfl⟩
  · obtain ⟨h1, h2, rfl⟩ := mem_strategyELSS h
    exact ⟨fun hc => by simp [elemELSS] at hc, fun hc => by simp [elemELSS] at hc,
      fun hc => by simp [elemELSS] at hc, fun _ => rfl, fun hc => by simp [elemELSS] at hc⟩

/-- Witness for C5 amended with the emitted NPS strategy at income 1000000. -/
theorem c5_savings_witness :
    elemNPS (1/10) [] ∈ get_standard_tax_strategies 1000000 [] { age := none } ∧
    (((elemNPS (1/10) []).current_utilization ≠ none → (elemNPS (1/10) []).potential_savings
        = some (pyRound (max 0 ((150000 : ℚ) - sumByCategories cats80C [])
            * tax_bracket_of 1000000 * (104/100)))) ∧
     ((elemNPS (1/10) []).self_family_limit ≠ none → (elemNPS (1/10) []).potential_savings
        = some (pyRound (max 0 ((if ({ age := none } : UserContext).age.getD 30 < 60
            then (25000 : ℚ) else 50000) - sumByCategories ["Health Insurance"] [])
            * tax_bracket_of 1000000 * (104/100)))) ∧
     ((elemNPS (1/10) []).additional_to_80c = true → (elemNPS (1/10) []).potential_savings
        = some (pyRound (max 0 ((50000 : ℚ) - sumByCategories ["NPS"] [])
            * tax_bracket_of 1000000 * (104/100)))) ∧
     ((elemNPS (1/10) []).lock_in_period ≠ none → (elemNPS (1/10) []).potential_savings
        = some (pyRound (max 0 (min (150000 : ℚ) ((1000000 : ℚ) * (1/10))
            - sumByCategories ["ELSS"] []) * tax_bracket_of 1000000 * (104/100)))) ∧
     ((elemNPS (1/10) []).current_deduction ≠ none →
        (elemNPS (1/10) []).potential_savings = none)) :=
  ⟨by rw [gen_empty]; simp,
   c5_savings_amended 1000000 [] { age := none } (elemNPS (1/10) []) (by rw [gen_empty]; simp)⟩

end TaxOptimizer
